import Mathlib

/-!
# Verification of the tumblr-to-markdown crawler (`main.py`)

A shallow embedding of the program in `main.py`.  The program fetches a
blog's posts from a paginated XML API, converts each post to Markdown,
downloads referenced images, and schedules page fetches over a worker pool.

Modelling conventions:

* Python exceptions are values of `PyErr`; a function that can raise
  returns `Except PyErr α × Trace`.  The `Trace` records the observable
  side effects (log lines, HTTP GET requests, file writes) that happened
  before the function returned or raised.
* The network is an oracle `Net : String → NetResult`: `requests.get url`
  either raises (`NetResult.fail`, for connection errors and timeouts) or
  yields a response with a status code and a body.
* `bytes.decode('utf-8')` plus `xmltodict.parse` on an API page body is
  modelled by a classification oracle producing a `PageContent`:
  undecodable bytes (decode raises `UnicodeDecodeError`), malformed XML
  (`xmltodict.parse` raises `ExpatError`), or a parsed document.
* Filesystem writes always succeed (the `IOError` branches of the source
  are never taken in the model); directory creation is not traced.
* Strings are processed as `List Char`; the regular expressions of the
  source are implemented as scanning functions with the leftmost,
  non-overlapping, lazy/greedy semantics of Python's `re` module,
  specialised to the concrete patterns appearing in the source.
-/

/-- Python exception classes that the source raises or catches. -/
inductive PyErr
  | requestException    -- requests.RequestException (incl. HTTPError, timeouts)
  | keyError
  | unicodeDecodeError
  | expatError          -- xml.parsers.expat.ExpatError from xmltodict.parse
  | valueError          -- e.g. int() on a non-numeric string
  | typeError
  | indexError
deriving DecidableEq

inductive LogLevel
  | info
  | warning
  | error
deriving DecidableEq

structure LogEvent where
  level : LogLevel
  msg : String
deriving DecidableEq

structure FileWrite where
  path : String
  content : String
deriving DecidableEq

/-- Observable side effects, in order of occurrence within each list. -/
structure Trace where
  logs : List LogEvent := []
  requests : List String := []
  writes : List FileWrite := []
deriving DecidableEq

def Trace.app (t u : Trace) : Trace :=
  { logs := t.logs ++ u.logs
    requests := t.requests ++ u.requests
    writes := t.writes ++ u.writes }

/-- Outcome of one `requests.get`. -/
inductive NetResult
  | fail                                  -- the GET raises RequestException
  | resp (status : Nat) (body : String)   -- a response arrived
deriving DecidableEq

abbrev Net := String → NetResult

/-! ## String helpers mirroring Python string/regex operations -/

abbrev Chars := List Char

def lit (s : String) : Chars := s.toList

/-- Python `str.split(sep)` for a one-character separator: splits at
every occurrence, keeping empty pieces; never returns an empty list. -/
def pySplitCharAux (sep : Char) (acc : Chars) : Chars → List Chars
  | [] => [acc.reverse]
  | c :: rest =>
    if c = sep then acc.reverse :: pySplitCharAux sep [] rest
    else pySplitCharAux sep (c :: acc) rest

def pySplitChar (sep : Char) (s : String) : List String :=
  (pySplitCharAux sep [] s.toList).map fun cs => String.mk cs

/-- `url.split('/')[-1]` : `str.split` with an explicit separator never
returns an empty list, so `[-1]` is its last element. -/
def lastSegment (url : String) : String := (pySplitChar '/' url).getLastD ""

/-- Python `str.strip` whitespace (ASCII portion). -/
def isPySpace (c : Char) : Bool :=
  c = ' ' || c = '\t' || c = '\n' || c = '\r' || c = '\x0b' || c = '\x0c'

def pyStrip (s : Chars) : Chars :=
  ((s.dropWhile isPySpace).reverse.dropWhile isPySpace).reverse

/-- Python `str.split()` with no argument: split on whitespace runs,
dropping empty tokens.  `acc` is the current token, reversed. -/
def pySplitWsAux (acc : Chars) : Chars → List Chars
  | [] => if acc = [] then [] else [acc.reverse]
  | c :: rest =>
    if isPySpace c then
      if acc = [] then pySplitWsAux [] rest
      else acc.reverse :: pySplitWsAux [] rest
    else pySplitWsAux (c :: acc) rest

def pySplitWs (s : String) : List String :=
  (pySplitWsAux [] s.toList).map fun cs => String.mk cs

/-- Python format spec `{key:<13}`: left-justify to width 13. -/
def ljust (s : String) (w : Nat) : String :=
  s ++ String.mk (List.replicate (w - s.length) ' ')

/-- Leftmost occurrence of the literal `pat`: returns the characters
before the match and the suffix beginning at the match. -/
def findFrom (pat : Chars) : Chars → Option (Chars × Chars)
  | [] => if pat.isPrefixOf ([] : Chars) then some ([], []) else none
  | c :: rest =>
    if pat.isPrefixOf (c :: rest) then some ([], c :: rest)
    else (findFrom pat rest).map fun p => (c :: p.1, p.2)

/-- All splits `(take i, drop i)` of a list, for `i = 0 .. length`. -/
def splitsAt : Chars → List (Chars × Chars)
  | [] => [([], [])]
  | c :: rest => ([], c :: rest) :: (splitsAt rest).map fun p => (c :: p.1, p.2)

/-- Candidates for a lazy `.*?` (no newline, `re.DOTALL` not set) followed
by a literal `pat`, in the order the regex engine tries them: the pairs
(gap consumed by `.*?`, suffix after `pat`), shortest gap first. -/
def lazyDotCandidates (pat : Chars) : Chars → List (Chars × Chars)
  | [] => if pat.isPrefixOf ([] : Chars) then [(([] : Chars), ([] : Chars))] else []
  | c :: rest =>
    let here : List (Chars × Chars) :=
      if pat.isPrefixOf (c :: rest) then [(([] : Chars), (c :: rest).drop pat.length)]
      else []
    if c = '\n' then here
    else here ++ (lazyDotCandidates pat rest).map fun p => (c :: p.1, p.2)

/-- For the pattern `<[^>]*>` at a position starting right after `<`:
`[^>]*` consumes up to the first `>`; returns the suffix after that `>`. -/
def dropThroughGt : Chars → Option Chars
  | [] => none
  | '>' :: rest => some rest
  | _ :: rest => dropThroughGt rest

/-- `re.sub(r'<[^>]*>', '', s)`: remove every tag-like fragment. -/
def stripTagsAux : Nat → Chars → Chars
  | 0, s => s
  | _ + 1, [] => []
  | fuel + 1, '<' :: rest =>
    match dropThroughGt rest with
    | some r => stripTagsAux fuel r
    | none => '<' :: stripTagsAux fuel rest
  | fuel + 1, c :: rest => c :: stripTagsAux fuel rest

def stripTags (s : Chars) : Chars := stripTagsAux s.length s

/-- One attempted match of `re.compile(r'<img.*?>')` (no DOTALL) at the
start of `s`: the matched text and the rest. -/
def imgTagMatchAt (s : Chars) : Option (Chars × Chars) :=
  if (lit "<img").isPrefixOf s then
    match lazyDotCandidates (lit ">") (s.drop 4) with
    | (gap, rest) :: _ => some (lit "<img" ++ gap ++ lit ">", rest)
    | [] => none
  else none

/-- `img_pattern.findall(paragraph)` for `<img.*?>`. -/
def imgFindAllAux : Nat → Chars → List Chars
  | 0, _ => []
  | _ + 1, [] => []
  | fuel + 1, c :: rest =>
    match imgTagMatchAt (c :: rest) with
    | some (m, r) => m :: imgFindAllAux fuel r
    | none => imgFindAllAux fuel rest

/-- `img_pattern.sub('', paragraph)` for `<img.*?>`. -/
def imgStripAux : Nat → Chars → Chars
  | 0, s => s
  | _ + 1, [] => []
  | fuel + 1, c :: rest =>
    match imgTagMatchAt (c :: rest) with
    | some (_, r) => imgStripAux fuel r
    | none => c :: imgStripAux fuel rest

/-- Python `str.replace(old, new)`: replace all non-overlapping
occurrences, left to right.  (All call sites pass a nonempty `old`: the
extracted paragraphs all contain `<p>`.) -/
def strReplaceAux (pat rep : Chars) : Nat → Chars → Chars
  | 0, s => s
  | _ + 1, [] => []
  | fuel + 1, c :: rest =>
    if pat.isPrefixOf (c :: rest) then
      rep ++ strReplaceAux pat rep fuel ((c :: rest).drop pat.length)
    else c :: strReplaceAux pat rep fuel rest

def strReplace (s pat rep : String) : String :=
  String.mk (strReplaceAux pat.toList rep.toList s.toList.length s.toList)

/-! ### The pattern `<img.*?src="([^"]+/([^/]+?))".*?>` (lines 200-217)

Engine order for one attempted match at a position: the first `.*?` is
lazy (shortest gap, no newline) before the literal `src="`; group 1 is
`[^"]+` (greedy, tried longest first) followed by a literal `/` and
group 2 `[^/]+?` (lazy, shortest first) followed by a literal `"`;
finally a lazy `.*?` before the closing `>`. -/

/-- Splits `t = A ++ '/' :: u` with `A` nonempty and quote-free, in the
order the greedy `[^"]+` tries them: longest `A` first. -/
def aCandidates (t : Chars) : List (Chars × Chars) :=
  ((splitsAt t).filterMap fun p =>
    match p.2 with
    | '/' :: u => if p.1 ≠ [] ∧ ¬ p.1.contains '"' then some (p.1, u) else none
    | _ => none).reverse

/-- Splits `u = B ++ '"' :: r` with `B` nonempty and slash-free, in the
order the lazy `[^/]+?` tries them: shortest `B` first. -/
def bCandidates (u : Chars) : List (Chars × Chars) :=
  (splitsAt u).filterMap fun p =>
    match p.2 with
    | '"' :: r => if p.1 ≠ [] ∧ ¬ p.1.contains '/' then some (p.1, r) else none
    | _ => none

/-- One attempted match of the full `img`-with-`src` pattern at the start
of `s`: on success, `(group 1, group 2, rest after the match)`. -/
def imgSrcMatchAt (s : Chars) : Option (Chars × Chars × Chars) :=
  if (lit "<img").isPrefixOf s then
    (lazyDotCandidates (lit "src=\"") (s.drop 4)).findSome? fun c1 =>
      (aCandidates c1.2).findSome? fun ca =>
        (bCandidates ca.2).findSome? fun cb =>
          match lazyDotCandidates (lit ">") cb.2 with
          | c2 :: _ => some (ca.1 ++ '/' :: cb.1, cb.1, c2.2)
          | [] => none
  else none

/-! ## DownloadWorker: media fetchers (lines 51-63 and 105-121) -/

/-- `DownloadWorker.download_image` (lines 51-63): the GET is not guarded
by a try, so a network failure raises `RequestException` to the caller; a
non-200 status is only logged (no `raise_for_status` here). -/
def download_image (net : Net) (url : String) (target_dir : String) :
    Except PyErr Unit × Trace :=
  -- target_dir.mkdir(parents=True, exist_ok=True): not traced
  match net url with
  | .fail => (.error .requestException, { requests := [url] })
  | .resp status body =>
    if status = 200 then
      let image_name := lastSegment url
      let image_path := target_dir ++ "/" ++ image_name
      (.ok (), { requests := [url]
                 writes := [⟨image_path, body⟩]
                 logs := [⟨.info, "Downloaded: " ++ image_name⟩] })
    else
      (.ok (), { requests := [url]
                 logs := [⟨.error, "Failed to download image from " ++ url⟩] })

/-- `DownloadWorker.download_photo` (lines 105-121): returns `""` for an
empty URL; otherwise computes `file_name` first, catches
`RequestException` (from the GET or `raise_for_status`) with a log, and
returns `file_name` regardless of whether the file was written. -/
def download_photo (net : Net) (url : String) (target_dir : String) :
    String × Trace :=
  if url = "" then ("", {})
  else
    let file_name := lastSegment url
    let file_path := target_dir ++ "/" ++ file_name
    let tr : Trace :=
      match net url with
      | .fail =>
        { requests := [url]
          logs := [⟨.error, "Failed to download " ++ url ++ ": RequestException"⟩] }
      | .resp status body =>
        if 400 ≤ status ∧ status < 600 then
          { requests := [url]
            logs := [⟨.error, "Failed to download " ++ url ++ ": HTTPError"⟩] }
        else
          { requests := [url]
            writes := [⟨file_path, body⟩]
            logs := [⟨.info, "Downloaded: " ++ file_name⟩] }
    (file_name, tr)

/-! ## Image-relocation transform (lines 173-222) -/

/-- Leftmost match of `re.findall(r'<p>.*?<img.*?</p>', body, re.DOTALL)`:
with `re.DOTALL` both lazy gaps may span newlines, so the leftmost match
runs from the first `<p>` that is followed (anywhere) by `<img` and then
`</p>`, through the first such `<img` and then the first `</p>` after it.
Returns `(before, match, after)`. -/
def matchImgPara (s : Chars) : Option (Chars × Chars × Chars) :=
  match findFrom (lit "<p>") s with
  | none => none
  | some (pre, suf) =>
    match findFrom (lit "<img") (suf.drop 3) with
    | none => none
    | some (mid1, suf2) =>
      match findFrom (lit "</p>") (suf2.drop 4) with
      | none => none
      | some (mid2, suf3) =>
        some (pre, lit "<p>" ++ mid1 ++ lit "<img" ++ mid2 ++ lit "</p>", suf3.drop 4)

def findAllImgParaAux : Nat → Chars → List Chars
  | 0, _ => []
  | fuel + 1, s =>
    match matchImgPara s with
    | none => []
    | some (_, m, rest) => m :: findAllImgParaAux fuel rest

/-- `DownloadWorker.extract_img_paragraphs` (lines 179-181). -/
def extract_img_paragraphs (body : String) : List String :=
  (findAllImgParaAux body.toList.length body.toList).map fun cs => String.mk cs

/-- `DownloadWorker.move_imgs_to_end` (lines 183-198). -/
def move_imgs_to_end (paragraphs : List String) : List String :=
  paragraphs.map fun paragraph =>
    let p := paragraph.toList
    let imgs := imgFindAllAux p.length p
    let paragraph_without_imgs := pyStrip (imgStripAux p.length p)
    let joined := List.intercalate (lit "\n") imgs
    if pyStrip (stripTags paragraph_without_imgs) = [] then
      String.mk (lit "\n\n" ++ joined)
    else
      String.mk (paragraph_without_imgs ++ lit "\n\n" ++ joined)

/-- The `img_pattern.sub(download_and_replace, paragraph)` loop of
`replace_img_with_markdown`: each match downloads group 1 and is replaced
by `![[` group 2 `]]`; an exception from `download_image` propagates,
keeping the effects already performed. -/
def replaceImgsAux (net : Net) (dir : String) : Nat → Chars → Except PyErr Chars × Trace
  | 0, s => (.ok s, {})
  | _ + 1, [] => (.ok [], {})
  | fuel + 1, c :: rest =>
    match imgSrcMatchAt (c :: rest) with
    | some (g1, g2, r) =>
      let d := download_image net (String.mk g1) dir
      match d.1 with
      | .error e => (.error e, d.2)
      | .ok _ =>
        let k := replaceImgsAux net dir fuel r
        match k.1 with
        | .error e => (.error e, Trace.app d.2 k.2)
        | .ok out => (.ok (lit "![[" ++ g2 ++ lit "]]" ++ out), Trace.app d.2 k.2)
    | none =>
      let k := replaceImgsAux net dir fuel rest
      match k.1 with
      | .error e => (.error e, k.2)
      | .ok out => (.ok (c :: out), k.2)

def replaceImgsList (net : Net) (dir : String) : List String → Except PyErr (List String) × Trace
  | [] => (.ok [], {})
  | p :: rest =>
    let r := replaceImgsAux net dir p.toList.length p.toList
    match r.1 with
    | .error e => (.error e, r.2)
    | .ok out =>
      let k := replaceImgsList net dir rest
      match k.1 with
      | .error e => (.error e, Trace.app r.2 k.2)
      | .ok outs => (.ok (String.mk out :: outs), Trace.app r.2 k.2)

/-- `DownloadWorker.replace_img_with_markdown` (lines 200-217). -/
def replace_img_with_markdown (net : Net) (paragraphs : List String)
    (target_dir : String) : Except PyErr (List String) × Trace :=
  -- attachments_dir.mkdir(parents=True, exist_ok=True): not traced
  replaceImgsList net (target_dir ++ "/attachments") paragraphs

/-- `DownloadWorker.update_body` (lines 219-222). -/
def update_body (body : String) (old_paragraphs new_paragraphs : List String) : String :=
  (old_paragraphs.zip new_paragraphs).foldl (fun b p => strReplace b p.1 p.2) body

/-- `DownloadWorker.handle_images` (lines 173-177). -/
def handle_images (net : Net) (body : String) (target_dir : String) :
    Except PyErr String × Trace :=
  let img_paragraphs := extract_img_paragraphs body
  let updated := move_imgs_to_end img_paragraphs
  let r := replace_img_with_markdown net updated target_dir
  match r.1 with
  | .error e => (.error e, r.2)
  | .ok updated2 => (.ok (update_body body img_paragraphs updated2), r.2)

/-! ## Post records (the dicts produced by xmltodict for one `<post>`)

`xmltodict` collapses a one-element list into a bare dict; where the
source indexes with `[...]` a missing key raises `KeyError`, while
`.get(...)` substitutes a default.  Multi-valued `tag` elements (which
would make `post.get('tag')` a list) are not modelled: `tag` is a single
optional string. -/

/-- A possibly-collapsed XML list: `one` is the bare-dict case. -/
inductive XmlList (α : Type)
  | one (a : α)
  | many (l : List α)
deriving DecidableEq

/-- One entry of a `photo-url` list; `text` is its `"#text"` value. -/
structure PhotoUrlEntry where
  text : Option String := none
deriving DecidableEq

structure Photo where
  photoUrl : Option (XmlList PhotoUrlEntry) := none   -- "photo-url"
deriving DecidableEq

structure PhotoSet where
  photo : Option (XmlList Photo) := none
deriving DecidableEq

structure PostRecord where
  id : Option String := none                 -- "@id"
  dateGmt : Option String := none            -- "@date-gmt"
  date : Option String := none               -- "@date"
  slug : Option String := none               -- "@slug"
  urlWithSlug : Option String := none        -- "@url-with-slug"
  type : Option String := none               -- "@type"
  tag : Option String := none
  regularTitle : Option String := none
  regularBody : Option String := none
  photoCaption : Option String := none
  photoset : Option PhotoSet := none
  photoUrl : Option (XmlList PhotoUrlEntry) := none   -- "photo-url"
  conversationTitle : Option String := none
  conversationText : Option String := none
deriving DecidableEq

/-- `post.get(field, default)` for the string-valued fields. -/
def PostRecord.get (p : PostRecord) (field : String) (default : String) : String :=
  let v : Option String :=
    if field = "@id" then p.id
    else if field = "@date-gmt" then p.dateGmt
    else if field = "@date" then p.date
    else if field = "@slug" then p.slug
    else if field = "@url-with-slug" then p.urlWithSlug
    else if field = "@type" then p.type
    else if field = "tag" then p.tag
    else if field = "regular-title" then p.regularTitle
    else if field = "regular-body" then p.regularBody
    else if field = "photo-caption" then p.photoCaption
    else if field = "conversation-title" then p.conversationTitle
    else if field = "conversation-text" then p.conversationText
    else none
  v.getD default

/-- `photo["photo-url"][0]["#text"]` on the value of a `photo-url` key:
a missing key raises `KeyError`; `[0]` on a collapsed bare dict raises
`KeyError` (integer key), on an empty list `IndexError`; a missing
`"#text"` raises `KeyError`. -/
def maxWidthUrl : Option (XmlList PhotoUrlEntry) → Except PyErr String
  | none => .error .keyError
  | some (.one _) => .error .keyError
  | some (.many []) => .error .indexError
  | some (.many (e :: _)) =>
    match e.text with
    | some t => .ok t
    | none => .error .keyError

/-- The hashtag line built from `post.get('tag', '').split()`. -/
def tagLine (p : PostRecord) : String :=
  "\n" ++ String.intercalate " " ((pySplitWs (p.get "tag" "")).map fun t => "#" ++ t)

/-- `DownloadWorker.regular_post_to_markdown` (lines 65-76). -/
def regular_post_to_markdown (net : Net) (post : PostRecord) (target_dir : String) :
    Except PyErr String × Trace :=
  let title := "# " ++ post.get "regular-title" "" ++ "\n\n"
  let h := handle_images net (post.get "regular-body" "") target_dir
  match h.1 with
  | .error e => (.error e, h.2)
  | .ok body => (.ok (title ++ body ++ "\n" ++ tagLine post), h.2)

/-- The `for photo in photoset.get("photo")` loop of
`photo_post_to_markdown`.  Iterating `None` raises `TypeError`; iterating
a collapsed bare dict yields its string keys, whose indexing raises
`TypeError`. -/
def photosetPhotos (net : Net) (dir : String) : List Photo → Except PyErr String × Trace
  | [] => (.ok "", {})
  | photo :: rest =>
    match maxWidthUrl photo.photoUrl with
    | .error e => (.error e, {})
    | .ok url =>
      let d := download_photo net url dir
      let k := photosetPhotos net dir rest
      match k.1 with
      | .error e => (.error e, Trace.app d.2 k.2)
      | .ok s => (.ok ("![[" ++ d.1 ++ "]]\n\n" ++ s), Trace.app d.2 k.2)

/-- `DownloadWorker.photo_post_to_markdown` (lines 78-103). -/
def photo_post_to_markdown (net : Net) (post : PostRecord) (target_dir : String) :
    Except PyErr String × Trace :=
  let caption := post.get "photo-caption" ""
  let attachment_dir := target_dir ++ "/attachments"
  -- attachment_dir.mkdir(parents=True, exist_ok=True): not traced
  let photos : Except PyErr String × Trace :=
    match post.photoset with
    | some ps =>
      match ps.photo with
      | none => (.error .typeError, {})
      | some (.one _) => (.error .typeError, {})
      | some (.many l) => photosetPhotos net attachment_dir l
    | none =>
      match maxWidthUrl post.photoUrl with
      | .error e => (.error e, {})
      | .ok url =>
        let d := download_photo net url attachment_dir
        (.ok ("![[" ++ d.1 ++ "]]\n\n"), d.2)
  match photos.1 with
  | .error e => (.error e, photos.2)
  | .ok ph => (.ok (ph ++ caption ++ "\n" ++ tagLine post), photos.2)

/-- `DownloadWorker.chat_post_to_markdown` (lines 123-133). -/
def chat_post_to_markdown (post : PostRecord) : String :=
  let title := "# " ++ post.get "conversation-title" "" ++ "\n\n"
  let body := post.get "conversation-text" ""
  "\n" ++ title ++ body ++ "\n" ++ tagLine post

/-- The metadata table of `save_post` (lines 142-151). -/
def table_rows (post : PostRecord) : String :=
  (["@url-with-slug", "@type", "@date-gmt", "@date"]).foldl
    (fun acc field =>
      acc ++ "| " ++ ljust (strReplace field "@" "") 13 ++ " | "
        ++ post.get field "" ++ " |\n")
    "| key | value |\n| --- | ----- |\n"

/-- The filename computed by `save_post` (lines 137-139):
`post.get("@date-gmt", "").split(" ")[0]` then the slug rule. -/
def postFilename (post : PostRecord) : String :=
  let date_gmt := (pySplitChar ' ' (post.get "@date-gmt" "")).headD ""
  let slug := post.get "@slug" ""
  if slug ≠ "" then date_gmt ++ "-" ++ slug ++ ".md" else date_gmt ++ ".md"

/-- The `match post_type` dispatch of `save_post` (lines 156-164): the
Markdown body appended after the metadata table, or the logged error for
an unmapped type. -/
def post_body_step (net : Net) (post : PostRecord) (target_dir : String) :
    Except PyErr String × Trace :=
  let post_type := post.get "@type" ""
  if post_type = "Regular" then regular_post_to_markdown net post target_dir
  else if post_type = "Photo" then photo_post_to_markdown net post target_dir
  else if post_type = "Conversation" then (.ok (chat_post_to_markdown post), {})
  else (.ok "", { logs := [⟨.error, "Unknown post type: " ++ post_type⟩] })

/-- `DownloadWorker.save_post` (lines 135-171).  An exception from a
conversion branch propagates before the file is written; the final
`IOError` catch is never taken in the model (writes always succeed). -/
def save_post (net : Net) (post : PostRecord) (target_dir : String) :
    Except PyErr Unit × Trace :=
  let file_path := target_dir ++ "/" ++ postFilename post
  let md0 := table_rows post ++ "\n"
  let step := post_body_step net post target_dir
  match step.1 with
  | .error e => (.error e, step.2)
  | .ok body =>
    (.ok (), Trace.app step.2
      { writes := [⟨file_path, md0 ++ body⟩]
        logs := [⟨.info, "Saved post to " ++ file_path⟩] })

/-! ## Post fetcher (lines 22-49) -/

/-- The parts of the parsed document the source reads.  `posts` is the
value of `data.get("tumblr", {}).get("posts", {}).get("post", [])`
(`absent` means a `.get` default kicked in); `total` is
`data["tumblr"]["posts"]["@total"]`, `none` meaning one of those keys is
missing (so the indexing raises `KeyError`). -/
inductive PostsVal
  | absent
  | single (p : PostRecord)
  | many (ps : List PostRecord)

structure TumblrDoc where
  posts : PostsVal := .absent
  total : Option String := none

/-- Classification of a page body after `content.decode('utf-8')` and
`xmltodict.parse`: the bytes do not decode, the text is not well-formed
XML, or a parsed document. -/
inductive PageContent
  | invalidUtf8
  | malformedXml (s : String)
  | doc (d : TumblrDoc)

/-- The per-post loop of `process_response` (lines 45-47). -/
def processPosts (net : Net) (target_dir : String) :
    List PostRecord → Except PyErr Unit × Trace
  | [] => (.ok (), {})
  | p :: rest =>
    let idLog : Trace :=
      { logs := [⟨.info, "Processing Post: " ++ p.get "@id" "Unknown ID"⟩] }
    let r := save_post net p target_dir
    match r.1 with
    | .error e => (.error e, Trace.app idLog r.2)
    | .ok _ =>
      let k := processPosts net target_dir rest
      (k.1, Trace.app idLog (Trace.app r.2 k.2))

/-- The body of the `try` block of `process_response` (lines 36-47). -/
def process_response_body (net : Net) (content : PageContent) (target_dir : String) :
    Except PyErr Unit × Trace :=
  match content with
  | .invalidUtf8 => (.error .unicodeDecodeError, {})
  | .malformedXml _ => (.error .expatError, {})
  | .doc d =>
    match d.posts with
    | .absent => (.ok (), { logs := [⟨.warning, "No posts found."⟩] })
    | .single p => processPosts net target_dir [p]
    | .many [] => (.ok (), { logs := [⟨.warning, "No posts found."⟩] })
    | .many ps => processPosts net target_dir ps

/-- `DownloadWorker.process_response` (lines 33-49): the `except` clause
catches exactly `KeyError` and `UnicodeDecodeError`. -/
def process_response (net : Net) (content : PageContent) (target_dir : String) :
    Except PyErr Unit × Trace :=
  match process_response_body net content target_dir with
  | (.error .keyError, tr) =>
    (.ok (), Trace.app tr { logs := [⟨.error, "Error processing response: KeyError"⟩] })
  | (.error .unicodeDecodeError, tr) =>
    (.ok (), Trace.app tr
      { logs := [⟨.error, "Error processing response: UnicodeDecodeError"⟩] })
  | r => r

/-- `DownloadWorker.download_posts` (lines 22-31): its `try` spans both
the GET (with `raise_for_status`) and `process_response`, catching only
`requests.RequestException`.  `classify` stands for decode + parse of the
response body. -/
def download_posts (net : Net) (classify : String → PageContent) (name : String)
    (num start : Int) (target_dir : String) : Except PyErr Unit × Trace :=
  let url := "https://" ++ name ++ ".tumblr.com/api/read?num=" ++ toString num
    ++ "&start=" ++ toString start
  let t0 : Trace := { logs := [⟨.info, "Fetching URL: " ++ url⟩], requests := [url] }
  match net url with
  | .fail =>
    (.ok (), Trace.app t0
      { logs := [⟨.error, "Error fetching URL " ++ url ++ ": RequestException"⟩] })
  | .resp status rbody =>
    if 400 ≤ status ∧ status < 600 then
      (.ok (), Trace.app t0
        { logs := [⟨.error, "Error fetching URL " ++ url ++ ": HTTPError"⟩] })
    else
      match process_response net (classify rbody) target_dir with
      | (.error .requestException, tr) =>
        (.ok (), Trace.app t0 (Trace.app tr
          { logs := [⟨.error, "Error fetching URL " ++ url ++ ": RequestException"⟩] }))
      | (r, tr) => (r, Trace.app t0 tr)

/-! ## Scheduler (lines 225-270) -/

/-- All (at least all ASCII) digits, as Python `int()` accepts them. -/
def digitsVal (cs : Chars) : Option Nat :=
  if cs ≠ [] ∧ cs.all Char.isDigit then
    some (cs.foldl (fun a c => a * 10 + (c.toNat - 48)) 0)
  else none

/-- Python `int(s)` on a string: optional surrounding whitespace, an
optional sign, then decimal digits (underscore separators are not
modelled); anything else raises `ValueError`. -/
def pyInt (s : String) : Except PyErr Int :=
  match pyStrip s.toList with
  | '+' :: ds =>
    match digitsVal ds with
    | some n => .ok (n : Int)
    | none => .error .valueError
  | '-' :: ds =>
    match digitsVal ds with
    | some n => .ok (-(n : Int))
    | none => .error .valueError
  | ds =>
    match digitsVal ds with
    | some n => .ok (n : Int)
    | none => .error .valueError

/-- Python `range(start, stop, step)` for a positive `step`. -/
def pyRange (start stop step : Int) : List Int :=
  (List.range (((stop - start).toNat + step.toNat - 1) / step.toNat)).map
    fun i : Nat => start + step * (i : Int)

/-- Modelled from the spec: `settings.py` is imported by the source but
is not among the provided files.  The spec fixes the first page offset at
0 (offsets `0, P, 2P, ...`), so `API_READ_START` is modelled as 0.  The
page size `settings.API_READ_NUM` is kept as an explicit parameter
`api_read_num` wherever the source reads it, and `settings.THREADS` (the
pool size) does not affect which tasks run or their submission order. -/
def API_READ_START : Int := 0

/-- One `executor.submit(self.worker.download_posts, name, num, start,
target_dir)` call: the argument tuple of a scheduled page-fetch task. -/
structure PageTask where
  name : String
  num : Int
  start : Int
  target_dir : String
deriving DecidableEq

/-- `CrawlerScheduler.schedule_blog_download` (lines 244-253). -/
def schedule_blog_download (api_read_num : Int) (name : String) (total : Int) :
    List PageTask :=
  let target_dir := "results/" ++ name
  -- target_dir.mkdir(parents=True, exist_ok=True): not traced
  (pyRange API_READ_START total api_read_num).map fun start =>
    { name := name, num := api_read_num, start := start, target_dir := target_dir }

/-- `CrawlerScheduler.get_total_post_count` (lines 255-270).
`raise_for_status` raises `HTTPError` for any 4xx/5xx status, which the
`except` clause catches (returning 0), so the explicit 404 branch below
it is dead code; `int(total_posts)` sits outside any matching `except`,
so a `ValueError` propagates, as does `ExpatError` from a malformed
body. -/
def get_total_post_count (net : Net) (classify : String → PageContent) (name : String) :
    Except PyErr Int × Trace :=
  let url := "https://" ++ name ++ ".tumblr.com/api/read"
  let t0 : Trace := { requests := [url] }
  let catchLog : String → Trace := fun kind =>
    { logs := [⟨.error, "Failed to retrieve post count for " ++ name ++ ": " ++ kind⟩] }
  match net url with
  | .fail => (.ok 0, Trace.app t0 (catchLog "RequestException"))
  | .resp status rbody =>
    if 400 ≤ status ∧ status < 600 then
      (.ok 0, Trace.app t0 (catchLog "HTTPError"))
    else if status = 404 then
      -- dead branch: a 404 already raised in raise_for_status above
      (.ok 0, Trace.app t0 { logs := [⟨.warning, name ++ " doesn't exist."⟩] })
    else
      match classify rbody with
      | .invalidUtf8 => (.ok 0, Trace.app t0 (catchLog "UnicodeDecodeError"))
      | .malformedXml _ => (.error .expatError, t0)
      | .doc d =>
        match d.total with
        | none => (.ok 0, Trace.app t0 (catchLog "KeyError"))
        | some s =>
          let t1 := Trace.app t0
            { logs := [⟨.info, name ++ " has " ++ s ++ " posts."⟩] }
          match pyInt s with
          | .error e => (.error e, t1)
          | .ok n => (.ok n, t1)

/-- The task-submission loop of `schedule_tasks` (lines 235-238): count
queries run sequentially in the main thread, so an exception there
propagates at once; otherwise the futures lists are concatenated in
order. -/
def collect_tasks (net : Net) (classify : String → PageContent) (api_read_num : Int) :
    List String → Except PyErr (List PageTask) × Trace
  | [] => (.ok [], {})
  | name :: rest =>
    let c := get_total_post_count net classify name
    match c.1 with
    | .error e => (.error e, c.2)
    | .ok total =>
      let ts := if total > 0 then schedule_blog_download api_read_num name total else []
      let k := collect_tasks net classify api_read_num rest
      match k.1 with
      | .error e => (.error e, Trace.app c.2 k.2)
      | .ok ts2 => (.ok (ts ++ ts2), Trace.app c.2 k.2)

/-- Execution of the submitted tasks on the worker pool.  Every submitted
task runs to completion (the pool's context manager waits for them and
never cancels), and each stores its outcome; thread interleaving is
abstracted by recording effects in submission order. -/
def run_tasks (net : Net) (classify : String → PageContent) :
    List PageTask → List (Except PyErr Unit) × Trace
  | [] => ([], {})
  | t :: rest =>
    let r := download_posts net classify t.name t.num t.start t.target_dir
    let k := run_tasks net classify rest
    (r.1 :: k.1, Trace.app r.2 k.2)

/-- The `for future in futures: future.result()` loop: `result()`
re-raises a task's stored exception, so the first failed future (in
submission order) aborts the loop. -/
def firstError : List (Except PyErr Unit) → Option PyErr
  | [] => none
  | .error e :: _ => some e
  | .ok _ :: rest => firstError rest

/-- `CrawlerScheduler.schedule_tasks` (lines 231-242). -/
def schedule_tasks (net : Net) (classify : String → PageContent) (api_read_num : Int)
    (names : List String) : Except PyErr Unit × Trace :=
  let c := collect_tasks net classify api_read_num names
  match c.1 with
  | .error e => (.error e, c.2)
  | .ok tasks =>
    let r := run_tasks net classify tasks
    match firstError r.1 with
    | some e => (.error e, Trace.app c.2 r.2)
    | none =>
      (.ok (), Trace.app c.2 (Trace.app r.2
        { logs := [⟨.info, "Completed downloading all posts."⟩] }))

/-! ## Concrete scenarios used by witnesses and counterexamples -/

/-- A network where every GET succeeds with status 200. -/
def netOk : Net := fun _ => .resp 200 "IMGBYTES"

/-- A network where every GET raises `RequestException`. -/
def netFail : Net := fun _ => .fail

/-- A network where every GET returns status 404. -/
def net404 : Net := fun _ => .resp 404 "missing blog"

/-- Blog `b`: the count endpoint answers `COUNT`, page fetches answer
`PAGE`. -/
def net1 : Net := fun url =>
  if url = "https://b.tumblr.com/api/read" then .resp 200 "COUNT" else .resp 200 "PAGE"

/-- Decode/parse oracle: page bodies are malformed XML, the count body
parses to a document with one post in total. -/
def classify1 : String → PageContent := fun s =>
  if s = "PAGE" then .malformedXml s
  else .doc { total := some "1", posts := .absent }

/-- The paragraph of the spec's worked example. -/
def c6Body : String := "<p>Hello <img src=\"https://x/y/cat.png\"> world</p>"

def examplePostHello : PostRecord :=
  { dateGmt := some "2020-01-02 10:00:00", slug := some "hello"
    type := some "Unrecognized" }

def examplePostNoSlug : PostRecord :=
  { dateGmt := some "2020-01-02 10:00:00", slug := some ""
    type := some "Unrecognized" }

/-- The start offsets of the page tasks scheduled for one blog. -/
def scheduled_starts (api_read_num : Int) (name : String) (total : Int) : List Int :=
  (schedule_blog_download api_read_num name total).map PageTask.start

/-! ## Supporting lemmas -/

theorem findFrom_some {pat : Chars} :
    ∀ {s pre suf : Chars}, findFrom pat s = some (pre, suf) →
      s = pre ++ suf ∧ pat.isPrefixOf suf = true := by
  intro s
  induction s with
  | nil =>
    intro pre suf h
    rw [findFrom] at h
    split at h
    · rename_i hp
      simp only [Option.some.injEq, Prod.mk.injEq] at h
      obtain ⟨h1, h2⟩ := h
      subst h1; subst h2
      exact ⟨rfl, hp⟩
    · cases h
  | cons c rest ih =>
    intro pre suf h
    rw [findFrom] at h
    split at h
    · rename_i hp
      simp only [Option.some.injEq, Prod.mk.injEq] at h
      obtain ⟨h1, h2⟩ := h
      subst h1; subst h2
      exact ⟨rfl, hp⟩
    · cases hf : findFrom pat rest with
      | none => rw [hf] at h; cases h
      | some q =>
        rw [hf] at h
        simp only [Option.map_some', Option.some.injEq, Prod.mk.injEq] at h
        obtain ⟨h1, h2⟩ := h
        obtain ⟨hq, hqp⟩ := ih hf
        subst h1; subst h2
        exact ⟨by rw [hq]; rfl, hqp⟩

theorem findFrom_none {pat : Chars} :
    ∀ {s : Chars}, findFrom pat s = none → ∀ x y : Chars, s ≠ x ++ pat ++ y := by
  intro s
  induction s with
  | nil =>
    intro h x y hxy
    rw [findFrom] at h
    split at h
    · cases h
    · rename_i hp
      have hx : x = [] ∧ pat = [] ∧ y = [] := by
        have h1 := congrArg List.length hxy
        simp only [List.length_nil, List.length_append] at h1
        refine ⟨List.eq_nil_of_length_eq_zero ?_, List.eq_nil_of_length_eq_zero ?_,
          List.eq_nil_of_length_eq_zero ?_⟩ <;> omega
      rw [hx.2.1] at hp
      simp [List.isPrefixOf] at hp
  | cons c rest ih =>
    intro h x y hxy
    rw [findFrom] at h
    split at h
    · cases h
    · rename_i hp
      cases hf : findFrom pat rest with
      | some q => rw [hf] at h; cases h
      | none =>
        cases x with
        | nil =>
          refine hp ?_
          refine List.isPrefixOf_iff_prefix.mpr ⟨y, ?_⟩
          simpa using hxy.symm
        | cons c2 x2 =>
          simp only [List.cons_append, List.cons.injEq] at hxy
          exact ih hf x2 y hxy.2

/-- A successful prefix check decomposes the list. -/
theorem prefix_decomp {pat suf : Chars} (h : pat.isPrefixOf suf = true) :
    suf = pat ++ suf.drop pat.length := by
  obtain ⟨t, ht⟩ := List.isPrefixOf_iff_prefix.mp h
  rw [← ht, List.drop_left]

/-- A match of the paragraph pattern exhibits `<p>`, `<img>`, `</p>`
occurring in that order inside `s`. -/
theorem matchImgPara_decomp {s pre m rest : Chars}
    (h : matchImgPara s = some (pre, m, rest)) :
    ∃ a b c d : Chars,
      s = a ++ lit "<p>" ++ b ++ lit "<img" ++ c ++ lit "</p>" ++ d := by
  unfold matchImgPara at h
  split at h
  · cases h
  · rename_i pre1 suf1 h1
    split at h
    · cases h
    · rename_i mid1 suf2 h2
      split at h
      · cases h
      · rename_i mid2 suf3 h3
        obtain ⟨hs1, hp1⟩ := findFrom_some h1
        obtain ⟨hs2, hp2⟩ := findFrom_some h2
        obtain ⟨hs3, hp3⟩ := findFrom_some h3
        refine ⟨pre1, mid1, mid2, suf3.drop 4, ?_⟩
        have e1 : suf1 = lit "<p>" ++ suf1.drop 3 := prefix_decomp hp1
        have e2 : suf2 = lit "<img" ++ suf2.drop 4 := prefix_decomp hp2
        have e3 : suf3 = lit "</p>" ++ suf3.drop 4 := prefix_decomp hp3
        rw [hs1, e1, hs2, e2, hs3, e3]
        simp only [List.append_assoc, List.append_cancel_left_eq]
        have h4 := List.drop_left (lit "</p>") (List.drop 4 suf3)
        rw [show (lit "</p>").length = 4 from rfl] at h4
        exact h4.symm

/-- If the paragraph pattern has no match, `findall` returns nothing. -/
theorem extract_img_paragraphs_eq_nil {body : String}
    (h : matchImgPara body.toList = none) : extract_img_paragraphs body = [] := by
  unfold extract_img_paragraphs
  cases hl : body.toList.length with
  | zero => rw [findAllImgParaAux]; rfl
  | succ n => rw [findAllImgParaAux, h]; rfl

/-! ## Claims -/

/-- C5: for every body string containing no `<img>` tag inside a
`<p>...</p>` span (no occurrence of `<p>` followed by `<img` and then
`</p>`, which is exactly when the extraction pattern
`<p>.*?<img.*?</p>` has no match), `handle_images` returns the body
unchanged and performs no side effects; idempotence on image-free bodies
follows, since output and input coincide. -/
theorem C5_theorem (net : Net) (body target_dir : String)
    (h : ¬ ∃ a b c d : Chars,
        body.toList = a ++ lit "<p>" ++ b ++ lit "<img" ++ c ++ lit "</p>" ++ d) :
    handle_images net body target_dir = (.ok body, {}) := by
  have hm : matchImgPara body.toList = none := by
    cases hmm : matchImgPara body.toList with
    | none => rfl
    | some q =>
      obtain ⟨p1, m1, r1⟩ := q
      exact absurd (matchImgPara_decomp hmm) h
  have he := extract_img_paragraphs_eq_nil hm
  unfold handle_images
  rw [he]
  simp [move_imgs_to_end, replace_img_with_markdown, replaceImgsList, update_body]

/-- C5 witness: the transform leaves the concrete image-free body
`"hello"` untouched. -/
theorem C5_witness :
    handle_images netOk "hello" "results/b" = (.ok "hello", {}) := by
  refine C5_theorem netOk "hello" "results/b" ?_
  rintro ⟨a, b, c, d, hd⟩
  have hlen := congrArg List.length hd
  rw [show ("hello").toList.length = 5 from rfl] at hlen
  simp only [List.length_append] at hlen
  rw [show (lit "<p>").length = 3 from rfl, show (lit "<img").length = 4 from rfl,
    show (lit "</p>").length = 4 from rfl] at hlen
  omega

/-- C6 counterexample: on the spec's example paragraph the transform
produces `"<p>Hello  world</p>\n\n![[cat.png]]"` — removing the `<img>`
tag keeps the space on each side of it, giving `"Hello  world"` with two
spaces — so the output does not contain the text `"Hello world"` (single
space) anywhere, refuting the claimed output shape.  (By `findFrom_none`,
a `none` result means no decomposition `x ++ lit "Hello world" ++ y`
exists.) -/
theorem C6_counterexample :
    (handle_images netOk c6Body "results/b").1
        = .ok "<p>Hello  world</p>\n\n![[cat.png]]" ∧
    findFrom (lit "Hello world") (lit "<p>Hello  world</p>\n\n![[cat.png]]") = none := by
  constructor
  · rfl
  · rfl

/-- C6 (amended): on the example paragraph the transform yields exactly
`"<p>Hello  world</p>\n\n![[cat.png]]"` — the text `Hello  world` (the
two spaces that surrounded the removed `<img>` tag are both kept),
followed by `</p>`, a blank line and `![[cat.png]]` — and issues exactly
one download request, for `https://x/y/cat.png`. -/
theorem C6_theorem :
    handle_images netOk c6Body "results/b"
      = (.ok "<p>Hello  world</p>\n\n![[cat.png]]",
         { logs := [⟨.info, "Downloaded: cat.png"⟩]
           requests := ["https://x/y/cat.png"]
           writes := [⟨"results/b/attachments/cat.png", "IMGBYTES"⟩] }) ∧
    lit "<p>Hello  world</p>\n\n![[cat.png]]"
      = lit "<p>" ++ lit "Hello  world" ++ lit "</p>" ++ lit "\n\n" ++ lit "![[cat.png]]" := by
  constructor
  · rfl
  · rfl

/-- C1 counterexample: a malformed-XML page body raises `ExpatError`
inside `process_response` and the `except (KeyError,
UnicodeDecodeError)` clause does not catch it, so the error propagates;
it also escapes `download_posts` (whose `except` catches only
`requests.RequestException`), reaching the caller — refuting the claim
that a malformed-XML page is caught and logged. -/
theorem C1_counterexample :
    process_response netOk (.malformedXml "<tumblr>") "results/b"
      = (.error .expatError, {}) ∧
    (download_posts net1 classify1 "b" 1 0 "results/b").1 = .error .expatError := by
  constructor
  · rfl
  · rfl

/-- C1 (amended): `process_response` catches undecodable bytes
(`UnicodeDecodeError`) and missing-key errors (`KeyError`), logging and
returning normally, but it does not catch malformed XML: `ExpatError`
(and any other exception class, e.g. `RequestException` from a nested
image download) propagates to the caller. -/
theorem C1_theorem :
    (∀ (net : Net) (dir : String),
      process_response net .invalidUtf8 dir
        = (.ok (), { logs := [⟨.error, "Error processing response: UnicodeDecodeError"⟩] })) ∧
    (∀ (net : Net) (s dir : String),
      process_response net (.malformedXml s) dir = (.error .expatError, {})) ∧
    (∀ (net : Net) (content : PageContent) (dir : String) (e : PyErr) (tr : Trace),
      process_response net content dir = (.error e, tr) →
        e ≠ .keyError ∧ e ≠ .unicodeDecodeError) := by
  refine ⟨fun net dir => rfl, fun net s dir => rfl, ?_⟩
  intro net content dir e tr h
  unfold process_response at h
  rcases hb : process_response_body net content dir with ⟨r, trb⟩
  rw [hb] at h
  match r, h with
  | .ok u, h => cases h
  | .error .requestException, h => cases h; decide
  | .error .keyError, h => cases h
  | .error .unicodeDecodeError, h => cases h
  | .error .expatError, h => cases h; decide
  | .error .valueError, h => cases h; decide
  | .error .typeError, h => cases h; decide
  | .error .indexError, h => cases h; decide

/-- C1 witness: the uncaught-error clause of `C1_theorem` applied at a
concrete malformed-XML input. -/
theorem C1_witness :
    PyErr.expatError ≠ PyErr.keyError ∧ PyErr.expatError ≠ PyErr.unicodeDecodeError :=
  C1_theorem.2.2 netOk (.malformedXml "<tumblr>") "results/b" .expatError {}
    (C1_theorem.2.1 netOk "<tumblr>" "results/b")

/-- C2 counterexample: with one blog whose single page task raises an
uncaught `ExpatError`, `schedule_tasks` re-raises it through
`future.result()` — the run terminates with a program failure instead of
merely logging the task's exception. -/
theorem C2_counterexample :
    (schedule_tasks net1 classify1 1 ["b"]).1 = .error .expatError := by
  rfl

/-- C2 (amended): `schedule_tasks` does wait for every submitted task
(all sibling tasks run to completion and their effects are kept in the
trace), and when every task result is ok it completes with the final
log line; but an exception stored in a task future is re-raised by the
`future.result()` loop and propagates out of `schedule_tasks` — it is
not logged and it terminates the run. -/
theorem C2_theorem (net : Net) (classify : String → PageContent)
    (api_read_num : Int) (names : List String) (tasks : List PageTask) (ctr : Trace)
    (hc : collect_tasks net classify api_read_num names = (.ok tasks, ctr)) :
    (firstError (run_tasks net classify tasks).1 = none →
      (schedule_tasks net classify api_read_num names).1 = .ok () ∧
      (⟨.info, "Completed downloading all posts."⟩ : LogEvent)
        ∈ (schedule_tasks net classify api_read_num names).2.logs) ∧
    (∀ e, firstError (run_tasks net classify tasks).1 = some e →
      (schedule_tasks net classify api_read_num names).1 = .error e ∧
      ∀ u ∈ (run_tasks net classify tasks).2.requests,
        u ∈ (schedule_tasks net classify api_read_num names).2.requests) := by
  unfold schedule_tasks
  rw [hc]
  dsimp only
  constructor
  · intro hfe
    rw [hfe]
    refine ⟨rfl, ?_⟩
    simp [Trace.app]
  · intro e hfe
    rw [hfe]
    refine ⟨rfl, fun u hu => ?_⟩
    simp only [Trace.app, List.mem_append]
    exact Or.inr hu

/-- C2 witness: the amended theorem applied to the concrete one-blog
scenario whose page task fails — the page request still appears in the
run's trace. -/
theorem C2_witness :
    "https://b.tumblr.com/api/read?num=1&start=0"
      ∈ (schedule_tasks net1 classify1 1 ["b"]).2.requests := by
  have h := (C2_theorem net1 classify1 1 ["b"]
      [{ name := "b", num := 1, start := 0, target_dir := "results/b" }]
      { logs := [⟨.info, "b has 1 posts."⟩]
        requests := ["https://b.tumblr.com/api/read"] }
      (by rfl)).2 .expatError (by rfl)
  exact h.2 "https://b.tumblr.com/api/read?num=1&start=0" (by decide)

/-- C3 counterexample: when the GET for a photo URL fails,
`download_photo` logs the failure but still returns `"cat.png"` — the
name of a file that was not written (its trace has no write) — rather
than an empty/absent filename, refuting the claim for `download_photo`. -/
theorem C3_counterexample :
    download_photo netFail "https://x/y/cat.png" "results/b/attachments"
      = ("cat.png",
         { logs := [⟨.error, "Failed to download https://x/y/cat.png: RequestException"⟩]
           requests := ["https://x/y/cat.png"] }) ∧
    ("cat.png" : String) ≠ "" := by
  constructor
  · rfl
  · decide

/-- C3 (amended): `download_image` logs and returns nothing (writing no
file) on a non-200 status, but has no `try` around its GET, so a network
failure raises `RequestException` to its caller; `download_photo`
returns `""` only for an empty URL — for a nonempty URL it always
returns the URL's last path segment, even when the fetch failed and no
file was written. -/
theorem C3_theorem :
    (∀ (net : Net) (url dir : String), net url = .fail →
      download_image net url dir = (.error .requestException, { requests := [url] })) ∧
    (∀ (net : Net) (url dir : String) (status : Nat) (body : String),
      net url = .resp status body → status ≠ 200 →
      download_image net url dir
        = (.ok (), { logs := [⟨.error, "Failed to download image from " ++ url⟩]
                     requests := [url] })) ∧
    (∀ (net : Net) (url dir : String), url ≠ "" →
      (download_photo net url dir).1 = lastSegment url) ∧
    (∀ (net : Net) (url dir : String), url ≠ "" → net url = .fail →
      download_photo net url dir
        = (lastSegment url,
           { logs := [⟨.error, "Failed to download " ++ url ++ ": RequestException"⟩]
             requests := [url] })) := by
  refine ⟨?_, ?_, ?_, ?_⟩
  · intro net url dir h
    unfold download_image
    rw [h]
  · intro net url dir status body h hs
    unfold download_image
    rw [h]
    simp [hs]
  · intro net url dir h
    unfold download_photo
    simp [h]
  · intro net url dir h hf
    unfold download_photo
    rw [hf]
    simp [h]

/-- C3 witness: the amended theorem applied to a failing GET for a
concrete image URL — `download_image` raises instead of returning. -/
theorem C3_witness :
    download_image netFail "https://x/y/a.png" "results/b/attachments"
      = (.error .requestException, { requests := ["https://x/y/a.png"] }) :=
  C3_theorem.1 netFail "https://x/y/a.png" "results/b/attachments" rfl

/-- Ceiling-division bound: `i` indexes a page exactly when its offset
`p * i` lies below `t`. -/
theorem ceil_div_lt_iff (t p i : Nat) (ht : 0 < t) (hp : 0 < p) :
    i < (t + p - 1) / p ↔ p * i < t := by
  rw [Nat.lt_iff_add_one_le, Nat.le_div_iff_mul_le hp, Nat.succ_mul, Nat.mul_comm p i]
  generalize i * p = k
  omega

/-- C4: for every post count `total > 0` and page size `P > 0`, the start
offsets submitted by the scheduler for a blog are exactly the multiples
of `P` below `total`, in order: the i-th submitted offset is `P * i`
(so consecutive offsets differ by `P` with no gaps), membership is
exactly divisibility-below-`total`, and the first offset is 0. -/
theorem C4_theorem (total P : Int) (name : String) (htotal : 0 < total) (hP : 0 < P) :
    (∀ i : Nat, (scheduled_starts P name total)[i]?
        = if P * (i : Int) < total then some (P * (i : Int)) else none) ∧
    (∀ o : Int, o ∈ scheduled_starts P name total
        ↔ (∃ i : Nat, o = P * (i : Int)) ∧ o < total) ∧
    (scheduled_starts P name total).head? = some 0 := by
  lift total to Nat using htotal.le with t
  lift P to Nat using hP.le with p
  have ht : 0 < t := by exact_mod_cast htotal
  have hp : 0 < p := by exact_mod_cast hP
  have hss : scheduled_starts (p : Int) name (t : Int)
      = (List.range ((t + p - 1) / p)).map fun i : Nat => ((p : Int) * (i : Int)) := by
    unfold scheduled_starts schedule_blog_download pyRange API_READ_START
    rw [List.map_map]
    simp only [Int.sub_zero, Int.toNat_natCast, Function.comp_def, zero_add, List.map_id']
  refine ⟨?_, ?_, ?_⟩
  · intro i
    rw [hss, List.getElem?_map]
    by_cases hi : i < (t + p - 1) / p
    · rw [List.getElem?_range hi]
      have hlt : (p : Int) * (i : Int) < (t : Int) := by
        exact_mod_cast (ceil_div_lt_iff t p i ht hp).mp hi
      simp [hlt]
    · have hnone : (List.range ((t + p - 1) / p))[i]? = none := by
        apply List.getElem?_eq_none
        simpa using Nat.le_of_not_lt hi
      rw [hnone]
      have hnlt : ¬ ((p : Int) * (i : Int) < (t : Int)) := by
        intro hc
        exact hi ((ceil_div_lt_iff t p i ht hp).mpr (by exact_mod_cast hc))
      simp [hnlt]
  · intro o
    rw [hss]
    constructor
    · intro ho
      obtain ⟨i, hi, rfl⟩ := List.mem_map.mp ho
      have hilt := List.mem_range.mp hi
      have hpi : p * i < t := (ceil_div_lt_iff t p i ht hp).mp hilt
      exact ⟨⟨i, rfl⟩, by exact_mod_cast hpi⟩
    · rintro ⟨⟨i, rfl⟩, hlt⟩
      refine List.mem_map.mpr ⟨i, List.mem_range.mpr ?_, rfl⟩
      exact (ceil_div_lt_iff t p i ht hp).mpr (by exact_mod_cast hlt)
  · have h0 : 0 < (t + p - 1) / p :=
      (ceil_div_lt_iff t p 0 ht hp).mpr (by simpa using ht)
    rw [hss, List.head?_eq_getElem?, List.getElem?_map, List.getElem?_range h0]
    simp

/-- C4 witness: with 25 posts and page size 10 the first scheduled
offset is 0 (the full offset list is `[0, 10, 20]`). -/
theorem C4_witness :
    (scheduled_starts 10 "blog" 25).head? = some 0 :=
  (C4_theorem 25 10 "blog" (by norm_num) (by norm_num)).2.2

/-- C7: whenever `save_post` completes normally, the Markdown file it
writes (the last write in its trace) is named from the date part of
`@date-gmt` (the text before the first space) joined with `@slug` by a
hyphen plus `.md` when the slug is non-empty, and just the date part
plus `.md` when the slug is empty. -/
theorem C7_theorem (net : Net) (post : PostRecord) (target_dir : String)
    (h : (save_post net post target_dir).1 = .ok ()) :
    ((save_post net post target_dir).2.writes.getLast?).map FileWrite.path
      = some (target_dir ++ "/" ++
        (if post.get "@slug" "" = "" then
          (pySplitChar ' ' (post.get "@date-gmt" "")).headD "" ++ ".md"
        else
          (pySplitChar ' ' (post.get "@date-gmt" "")).headD "" ++ "-"
            ++ post.get "@slug" "" ++ ".md")) := by
  unfold save_post at h ⊢
  dsimp only at h ⊢
  cases hstep : (post_body_step net post target_dir).1 with
  | error e => rw [hstep] at h; cases h
  | ok body =>
    dsimp only [Trace.app]
    rw [List.getLast?_concat]
    unfold postFilename
    dsimp only
    by_cases hslug : post.get "@slug" "" = "" <;> simp [hslug]

/-- C7 witness: `@date-gmt="2020-01-02 10:00:00"` with `@slug="hello"`
gives `2020-01-02-hello.md`, and with `@slug=""` gives `2020-01-02.md`. -/
theorem C7_witness :
    (((save_post netOk examplePostHello "results/b").2.writes.getLast?).map FileWrite.path
        = some "results/b/2020-01-02-hello.md") ∧
    (((save_post netOk examplePostNoSlug "results/b").2.writes.getLast?).map FileWrite.path
        = some "results/b/2020-01-02.md") := by
  constructor
  · rw [C7_theorem netOk examplePostHello "results/b" (by rfl)]
    rfl
  · rw [C7_theorem netOk examplePostNoSlug "results/b" (by rfl)]
    rfl

/-- C8: a blog whose count query returns HTTP 404 yields a total of 0
(`raise_for_status` raises `HTTPError`, the `except` clause catches it
and returns 0), so the scheduler submits zero page tasks for that blog
and a run over just that blog writes zero files and exits normally. -/
theorem C8_theorem (net : Net) (classify : String → PageContent) (name : String)
    (api_read_num : Int) (body : String)
    (h : net ("https://" ++ name ++ ".tumblr.com/api/read") = .resp 404 body) :
    (get_total_post_count net classify name).1 = .ok 0 ∧
    (collect_tasks net classify api_read_num [name]).1 = .ok [] ∧
    (schedule_tasks net classify api_read_num [name]).1 = .ok () ∧
    (schedule_tasks net classify api_read_num [name]).2.writes = [] := by
  have hg : get_total_post_count net classify name
      = (.ok 0,
         { logs := [⟨.error, "Failed to retrieve post count for " ++ name ++ ": HTTPError"⟩]
           requests := ["https://" ++ name ++ ".tumblr.com/api/read"] }) := by
    unfold get_total_post_count
    dsimp only
    rw [h]
    norm_num [Trace.app, String.append_assoc]
    rfl
  have hcol : collect_tasks net classify api_read_num [name]
      = (.ok [],
         { logs := [⟨.error, "Failed to retrieve post count for " ++ name ++ ": HTTPError"⟩]
           requests := ["https://" ++ name ++ ".tumblr.com/api/read"] }) := by
    unfold collect_tasks
    rw [hg]
    dsimp only
    norm_num [collect_tasks, Trace.app]
  refine ⟨by rw [hg], by rw [hcol], ?_, ?_⟩
  · unfold schedule_tasks
    rw [hcol]
    rfl
  · unfold schedule_tasks
    rw [hcol]
    rfl

/-- C8 witness: a concrete blog whose endpoint answers 404 produces a
run with zero file writes. -/
theorem C8_witness :
    (schedule_tasks net404 classify1 10 ["gone"]).2.writes = [] :=
  (C8_theorem net404 classify1 "gone" 10 "missing blog" rfl).2.2.2

/-- C9: for every post whose `@type` is none of `Regular`, `Photo`,
`Conversation`, `save_post` still writes the Markdown file, whose content
is exactly the four-row metadata table (url-with-slug, type, date-gmt,
date) with nothing after it, and logs the unknown-type error. -/
theorem C9_theorem (net : Net) (post : PostRecord) (target_dir : String)
    (h1 : post.get "@type" "" ≠ "Regular") (h2 : post.get "@type" "" ≠ "Photo")
    (h3 : post.get "@type" "" ≠ "Conversation") :
    save_post net post target_dir
      = (.ok (),
         { logs := [⟨.error, "Unknown post type: " ++ post.get "@type" ""⟩,
                    ⟨.info, "Saved post to " ++ (target_dir ++ "/" ++ postFilename post)⟩]
           writes := [⟨target_dir ++ "/" ++ postFilename post,
                      table_rows post ++ "\n"⟩] }) := by
  unfold save_post post_body_step
  dsimp only
  rw [if_neg h1, if_neg h2, if_neg h3]
  dsimp only [Trace.app]
  simp

/-- C9 witness: a concrete post of type `Unrecognized` yields exactly the
metadata table, the two log lines, and no body. -/
theorem C9_witness :
    save_post netOk examplePostHello "results/b"
      = (.ok (),
         { logs := [⟨.error, "Unknown post type: Unrecognized"⟩,
                    ⟨.info, "Saved post to results/b/2020-01-02-hello.md"⟩]
           writes := [⟨"results/b/2020-01-02-hello.md",
              "| key | value |\n| --- | ----- |\n| url-with-slug |  |\n| type          | Unrecognized |\n| date-gmt      | 2020-01-02 10:00:00 |\n| date          |  |\n\n"⟩] }) := by
  rw [C9_theorem netOk examplePostHello "results/b" (by decide) (by decide) (by decide)]
  rfl

/-- C10: `download_photo` called with an empty URL returns the empty
string at once, with an empty trace: no HTTP request is issued and no
file is created or written. -/
theorem C10_theorem (net : Net) (target_dir : String) :
    download_photo net "" target_dir = ("", {}) := by
  unfold download_photo
  simp
